import Mathlib

set_option maxHeartbeats 1000000

/-!
Shallow embedding of the MOXA buzzer control library (mx_buzzer.c).

The library keeps four globals: `lib_initialized`, the json config handle,
and a `struct buzzer_struct` holding the GPIO pin number, the `is_playing`
flag and the requested `duration`.  `mx_buzzer_play_sound` drives the GPIO
line high and, for a non-zero duration, spawns a `wait_and_stop` pthread
that re-reads the clock once per second and, once the duration has elapsed,
drives the line low.  `mx_buzzer_stop_sound` cancels that thread and drives
the line low itself.

External collaborators (json-c, mx_gpio, pthread_create, the clock) are
modelled by environment records carrying the outcome of each external call.
Moxa error codes are distinct negative integers and success is 0; the
library tests every return with `< 0`, so returns are embedded as
`Except MxErr Unit` with `.error` standing for the negative codes.
The model additionally tracks the level driven on the GPIO line
(`line_high`), whether a `wait_and_stop` thread exists (`thread_armed`),
and the list of attempted `mx_gpio_set_value` calls of each operation.
-/

namespace MxBuzzer

/-- The error codes mx_buzzer.c returns.  `E_GPIOERR c` stands for an error
code that the mx_gpio layer returned and the library propagates unchanged. -/
inductive MxErr where
  | E_CONFERR
  | E_UNSUPCONFVER
  | E_SYSFUNCERR
  | E_LIBNOTINIT
  | E_BUZZER_PLAYING
  | E_INVAL
  | E_GPIOERR (code : Nat)
  deriving DecidableEq, Repr

/-- DURATION_KEEP from mx_buzzer.h: duration 0 means play until stopped. -/
def DURATION_KEEP : Nat := 0

/-- Drop the leading whitespace that a `%d` conversion of `sscanf` skips. -/
def skipWs : List Char → List Char
  | [] => []
  | c :: cs => if c.isWhitespace then skipWs cs else c :: cs

/-- Longest digit run at the front of the input, and the rest. -/
def takeDigits : List Char → List Char × List Char
  | [] => ([], [])
  | c :: cs =>
    if c.isDigit then
      let r := takeDigits cs
      (c :: r.1, r.2)
    else ([], c :: cs)

/-- Numeric value of a digit run. -/
def digitsToNat (ds : List Char) : Nat :=
  ds.foldl (fun a c => 10 * a + (c.toNat - '0'.toNat)) 0

/-- One `%d` conversion: skip whitespace, optional sign, at least one digit.
`none` is a conversion that assigns nothing. -/
def scanInt (cs : List Char) : Option (Int × List Char) :=
  match skipWs cs with
  | '-' :: rest =>
    let r := takeDigits rest
    if r.1.isEmpty then none else some (-(digitsToNat r.1 : Int), r.2)
  | '+' :: rest =>
    let r := takeDigits rest
    if r.1.isEmpty then none else some ((digitsToNat r.1 : Int), r.2)
  | other =>
    let r := takeDigits other
    if r.1.isEmpty then none else some ((digitsToNat r.1 : Int), r.2)

/-- Result of `sscanf(s, "%d.%d.%*s", &v0, &v1)`: the number of conversions
assigned (-1, that is EOF, for an input failure before the first conversion)
and the two targets.  A target that is not assigned keeps its incoming,
indeterminate, contents (`old0`, `old1`). -/
structure ScanDD where
  count : Int
  v0 : Int
  v1 : Int
  deriving DecidableEq, Repr

def sscanf_dd (s : String) (old0 old1 : Int) : ScanDD :=
  match scanInt s.data with
  | none =>
    if (skipWs s.data).isEmpty then ⟨-1, old0, old1⟩ else ⟨0, old0, old1⟩
  | some (n0, rest) =>
    match rest with
    | '.' :: rest2 =>
      match scanInt rest2 with
      | none => ⟨1, n0, old1⟩
      | some (n1, _) => ⟨2, n0, n1⟩
    | _ => ⟨1, n0, old1⟩

def CONF_VER_SUPPORTED : String := "1.0.*"

/-- Lines 136-155 of mx_buzzer.c.  The `< 0` tests mirror the C code: only an
`sscanf` input failure (return EOF) is caught, while a match failure (return
0 or 1) leaves some targets holding their indeterminate previous contents,
which the comparison then reads; those contents are the four junk
parameters. -/
def check_config_version_supported (conf_ver : String)
    (cv_junk0 cv_junk1 sv_junk0 sv_junk1 : Int) : Except MxErr Unit :=
  let cv := sscanf_dd conf_ver cv_junk0 cv_junk1
  if cv.count < 0 then .error .E_SYSFUNCERR
  else
    let sv := sscanf_dd CONF_VER_SUPPORTED sv_junk0 sv_junk1
    if sv.count < 0 then .error .E_SYSFUNCERR
    else if cv.v0 ≠ sv.v0 ∨ cv.v1 ≠ sv.v1 then .error .E_UNSUPCONFVER
    else .ok ()

/-- struct buzzer_struct. -/
structure BuzzerStruct where
  gpio_num : Int
  is_playing : Bool
  duration : Nat
  deriving DecidableEq, Repr

/-- The library's globals, together with the model components standing for
the pthread the code creates (`thread_armed`) and the level currently driven
on the GPIO line (`line_high`). -/
structure LibState where
  lib_initialized : Bool
  buzzer : BuzzerStruct
  thread_armed : Bool
  line_high : Bool
  deriving DecidableEq, Repr

/-- The spec's lifecycle states, read off the globals. -/
inductive Status where
  | Uninitialized
  | Idle
  | Playing
  deriving DecidableEq, Repr

def LibState.status (s : LibState) : Status :=
  if s.lib_initialized then
    if s.buzzer.is_playing then .Playing else .Idle
  else .Uninitialized

/-- Return value of an API call, the state it leaves behind, and the
`mx_gpio_set_value` calls it attempted, in order (`true` = GPIO_VALUE_HIGH). -/
structure OpResult where
  ret : Except MxErr Unit
  st : LibState
  writes : List Bool

/-- The fields the code reads from the config json; `none` models a missing
key. -/
structure ConfDoc where
  config_version : Option String
  gpio_num : Option Int

/-- Outcomes of the external calls `mx_buzzer_init` makes: the config load,
the indeterminate stack contents the sscanf bug can expose, and the mx_gpio
results. -/
structure InitEnv where
  load : Option ConfDoc
  cv_junk0 : Int
  cv_junk1 : Int
  sv_junk0 : Int
  sv_junk1 : Int
  already_exported : Bool
  export_ret : Except MxErr Unit
  dir_ret : Except MxErr Unit

/-- Lines 181-218 of mx_buzzer.c (`mx_buzzer_init`). -/
def mx_buzzer_init (env : InitEnv) (s : LibState) : OpResult :=
  if s.lib_initialized then ⟨.ok (), s, []⟩
  else
    match env.load with
    | none => ⟨.error .E_CONFERR, s, []⟩
    | some config =>
      match config.config_version with
      | none => ⟨.error .E_CONFERR, s, []⟩
      | some conf_ver =>
        match check_config_version_supported conf_ver env.cv_junk0 env.cv_junk1
            env.sv_junk0 env.sv_junk1 with
        | .error e => ⟨.error e, s, []⟩
        | .ok _ =>
          match config.gpio_num with
          | none => ⟨.error .E_CONFERR, s, []⟩
          | some n =>
            let s1 : LibState := { s with buzzer.gpio_num := n }
            match (if env.already_exported then Except.ok () else env.export_ret) with
            | .error e => ⟨.error e, s1, []⟩
            | .ok _ =>
              match env.dir_ret with
              | .error e => ⟨.error e, s1, []⟩
              | .ok _ =>
                ⟨.ok (), { s1 with buzzer.is_playing := false, lib_initialized := true }, []⟩

/-- Outcomes of the external calls `mx_buzzer_play_sound` makes.
`thread_create_ok` is whether pthread_create returns 0; a failing
pthread_create returns a positive error number, never a negative one. -/
structure PlayEnv where
  set_high : Except MxErr Unit
  thread_create_ok : Bool

/-- Lines 220-254 of mx_buzzer.c (`mx_buzzer_play_sound`).  The code tests
`pthread_create(...) < 0`, but pthread_create returns 0 on success and a
positive error number on failure, so that error branch is dead: a spawn
failure is not caught and execution falls through to `is_playing = 1` and
E_SUCCESS with no thread created. -/
def mx_buzzer_play_sound (env : PlayEnv) (duration : Nat) (s : LibState) : OpResult :=
  if !s.lib_initialized then ⟨.error .E_LIBNOTINIT, s, []⟩
  else if s.buzzer.is_playing then ⟨.error .E_BUZZER_PLAYING, s, []⟩
  else if duration > 60 then ⟨.error .E_INVAL, s, []⟩
  else
    match env.set_high with
    | .error e => ⟨.error e, s, [true]⟩
    | .ok _ =>
      let s1 : LibState := { s with line_high := true, buzzer.duration := duration }
      if s1.buzzer.duration ≠ DURATION_KEEP then
        if env.thread_create_ok then
          ⟨.ok (), { s1 with thread_armed := true, buzzer.is_playing := true }, [true]⟩
        else ⟨.ok (), { s1 with buzzer.is_playing := true }, [true]⟩
      else ⟨.ok (), { s1 with buzzer.is_playing := true }, [true]⟩

/-- Outcome of the external call `mx_buzzer_stop_sound` makes. -/
structure StopEnv where
  set_low : Except MxErr Unit

/-- Lines 256-277 of mx_buzzer.c (`mx_buzzer_stop_sound`).  `pthread_cancel`
is modelled as disarming the background thread. -/
def mx_buzzer_stop_sound (env : StopEnv) (s : LibState) : OpResult :=
  if !s.lib_initialized then ⟨.error .E_LIBNOTINIT, s, []⟩
  else if !s.buzzer.is_playing then ⟨.ok (), s, []⟩
  else
    let s1 : LibState :=
      if s.buzzer.duration ≠ DURATION_KEEP then { s with thread_armed := false } else s
    match env.set_low with
    | .error e => ⟨.error e, s1, [false]⟩
    | .ok _ => ⟨.ok (), { s1 with line_high := false, buzzer.is_playing := false }, [false]⟩

/-- What the background thread body delivers: the value it returns to a
joiner (the C code returns NULL on both paths), its stderr output, the state
it leaves behind, and the attempted GPIO writes. -/
structure TaskResult where
  retval : Option MxErr
  log : List String
  st : LibState
  writes : List Bool

/-- Lines 168-175 of mx_buzzer.c: what `wait_and_stop` does once its waiting
loop has ended.  On a failed write it prints to stderr and exits without
touching `is_playing`. -/
def wait_and_stop (set_low : Except MxErr Unit) (s : LibState) : TaskResult :=
  match set_low with
  | .error _ => ⟨none, ["failed to stop buzzer"], { s with thread_armed := false }, [false]⟩
  | .ok _ =>
    ⟨none, [], { s with thread_armed := false, line_high := false, buzzer.is_playing := false },
      [false]⟩

/-- The implicit `(unsigned long)(ts - ts_start)` conversion in the loop
condition of lines 160-166 (time_t minus time_t compared against an
unsigned long); 18446744073709551616 is 2^64. -/
def ulongOf (x : Int) : Nat := (x % 18446744073709551616).toNat

/-- Lines 160-166 of mx_buzzer.c: the do/while loop re-reads the clock after
every one-second sleep and exits at the first sample whose elapsed time is
at least `waiting_time`.  `samples` is the successive values `time(NULL)`
returns after each sleep; the result is the sample at which the loop exits,
`none` when the list runs out first.  (The `*((int *) arg)` read of the
unsigned long duration is value-preserving for the durations up to 60 the
library arms a thread for.) -/
def wait_loop (ts_start : Int) (waiting_time : Nat) : List Int → Option Int
  | [] => none
  | ts :: rest =>
    if ulongOf (ts - ts_start) < waiting_time then wait_loop ts_start waiting_time rest
    else some ts

/-- Which transitions a run may use: whether `mx_buzzer_stop_sound` may be
called. -/
structure StepOpts where
  allowStop : Bool

/-- One API call, or one completed background thread, with arbitrary
outcomes of the external calls.  The background thread only runs while it
exists. -/
inductive Step (o : StepOpts) : LibState → LibState → Prop where
  | init (s : LibState) (env : InitEnv) : Step o s (mx_buzzer_init env s).st
  | play (s : LibState) (env : PlayEnv) (d : Nat) :
      Step o s (mx_buzzer_play_sound env d s).st
  | stop (s : LibState) (env : StopEnv) (hallow : o.allowStop = true) :
      Step o s (mx_buzzer_stop_sound env s).st
  | auto (s : LibState) (g : Except MxErr Unit) (harmed : s.thread_armed = true) :
      Step o s (wait_and_stop g s).st

def Reachable (o : StepOpts) : LibState → LibState → Prop :=
  Relation.ReflTransGen (Step o)

def optsAll : StepOpts := ⟨true⟩
def optsNoStop : StepOpts := ⟨false⟩

/-- All globals zero-initialised at process start; the line starts low. -/
def s0 : LibState := ⟨false, ⟨0, false, 0⟩, false, false⟩

/-!
Interleaved model of the race between a foreground `mx_buzzer_stop_sound`
call and the `wait_and_stop` thread of a timed playback whose duration is
about to elapse (library initialized, duration non-zero, both GPIO writes
succeed).  Each program point of the two code paths is one atomic step
on the shared globals, and `low_writes` counts the executed GPIO-low
writes.
-/

inductive Tid where
  | fg
  | bg
  deriving DecidableEq, Repr

/-- Program points of `mx_buzzer_stop_sound` past its initialization check:
read `is_playing` and issue `pthread_cancel`; do the GPIO-low write; clear
`is_playing`. -/
inductive FgPc where
  | check
  | write
  | flag
  | done
  deriving DecidableEq, Repr

/-- Program points of the `wait_and_stop` thread: in the sleep/re-check
loop; at the GPIO-low write; at the store clearing `is_playing`. -/
inductive BgPc where
  | sleeping
  | write
  | flag
  | done
  deriving DecidableEq, Repr

structure RaceState where
  is_playing : Bool
  cancel_requested : Bool
  fgpc : FgPc
  bgpc : BgPc
  low_writes : Nat
  deriving DecidableEq, Repr

/-- One instruction of the foreground `mx_buzzer_stop_sound` call.  Reading
`is_playing` and issuing `pthread_cancel` (lines 263-269) is one step; the
GPIO write and the `is_playing` store are separate steps. -/
def fgStep (s : RaceState) : RaceState :=
  match s.fgpc with
  | .check =>
    if s.is_playing then { s with cancel_requested := true, fgpc := .write }
    else { s with fgpc := .done }
  | .write => { s with low_writes := s.low_writes + 1, fgpc := .flag }
  | .flag => { s with is_playing := false, fgpc := .done }
  | .done => s

/-- One instruction of the `wait_and_stop` thread.  `sleep` and the `write`
behind `mx_gpio_set_value` are POSIX cancellation points, so a pending
cancel takes effect there; leaving the loop once the duration has elapsed,
the store to `is_playing` and the thread return are not cancellation
points. -/
def bgStep (s : RaceState) : RaceState :=
  match s.bgpc with
  | .sleeping =>
    if s.cancel_requested then { s with bgpc := .done }
    else { s with bgpc := .write }
  | .write =>
    if s.cancel_requested then { s with bgpc := .done }
    else { s with low_writes := s.low_writes + 1, bgpc := .flag }
  | .flag => { s with is_playing := false, bgpc := .done }
  | .done => s

def raceStep (s : RaceState) : Tid → RaceState
  | .fg => fgStep s
  | .bg => bgStep s

/-- Run the two code paths under a given interleaving. -/
def runRace (sched : List Tid) (s : RaceState) : RaceState :=
  sched.foldl raceStep s

/-- Timed playback in progress, `stop()` just past its init check, timer
about to fire. -/
def raceInit : RaceState := ⟨true, false, .check, .sleeping, 0⟩

/-- The interleaving in which the thread's duration elapses and it performs
its GPIO-low write just before `stop()` examines `is_playing`. -/
def raceSchedule : List Tid := [.bg, .bg, .fg, .fg, .bg, .fg]

/-!  Sample states and environments used by the concrete witnesses. -/

/-- An initialized, idle device (pin 60, line low). -/
def sampleIdle : LibState := ⟨true, ⟨60, false, 0⟩, false, false⟩

/-- An initialized device in a timed playback: playing, duration 5, thread
armed, line high. -/
def samplePlayingTimed : LibState := ⟨true, ⟨60, true, 5⟩, true, true⟩

/-- Play environment in which both external calls succeed. -/
def envPlayOk : PlayEnv := ⟨.ok (), true⟩

/-- Play environment in which the GPIO-high write succeeds but
pthread_create fails with a positive error number. -/
def envPlaySpawnFail : PlayEnv := ⟨.ok (), false⟩

/-- Init environment holding a well-formed config for pin 60 and succeeding
gpio calls. -/
def envInitGood : InitEnv := ⟨some ⟨some "1.0.0", some 60⟩, 0, 0, 0, 0, true, .ok (), .ok ()⟩

/-- Stop environment whose GPIO-low write fails. -/
def envStopFail : StopEnv := ⟨.error (.E_GPIOERR 3)⟩

/-!  Helper lemmas about the individual operations. -/

lemma init_noop (env : InitEnv) (s : LibState) (h : s.lib_initialized = true) :
    mx_buzzer_init env s = ⟨.ok (), s, []⟩ := by
  simp [mx_buzzer_init, h]

lemma play_noninit (env : PlayEnv) (d : Nat) (s : LibState) (h : s.lib_initialized = false) :
    mx_buzzer_play_sound env d s = ⟨.error .E_LIBNOTINIT, s, []⟩ := by
  simp [mx_buzzer_play_sound, h]

lemma play_already (env : PlayEnv) (d : Nat) (s : LibState)
    (h1 : s.lib_initialized = true) (h2 : s.buzzer.is_playing = true) :
    mx_buzzer_play_sound env d s = ⟨.error .E_BUZZER_PLAYING, s, []⟩ := by
  simp [mx_buzzer_play_sound, h1, h2]

lemma stop_noninit (env : StopEnv) (s : LibState) (h : s.lib_initialized = false) :
    mx_buzzer_stop_sound env s = ⟨.error .E_LIBNOTINIT, s, []⟩ := by
  simp [mx_buzzer_stop_sound, h]

lemma stop_idle (env : StopEnv) (s : LibState) (h1 : s.lib_initialized = true)
    (h2 : s.buzzer.is_playing = false) :
    mx_buzzer_stop_sound env s = ⟨.ok (), s, []⟩ := by
  simp [mx_buzzer_stop_sound, h1, h2]

/-- Partition of the `mx_buzzer_init` runs: a no-op success when already
initialized; a failure from an uninitialized state, leaving at most the pin
number changed; or a success from an uninitialized state, setting
`lib_initialized` with `is_playing` cleared. -/
lemma init_st_shape (env : InitEnv) (s : LibState) :
    (s.lib_initialized = true ∧ mx_buzzer_init env s = ⟨.ok (), s, []⟩) ∨
    (s.lib_initialized = false ∧ (∃ e, (mx_buzzer_init env s).ret = .error e) ∧
      ((mx_buzzer_init env s).st = s ∨
        ∃ n, (mx_buzzer_init env s).st = { s with buzzer.gpio_num := n })) ∨
    (s.lib_initialized = false ∧ (mx_buzzer_init env s).ret = Except.ok () ∧
      ∃ n, (mx_buzzer_init env s).st =
        { s with buzzer.gpio_num := n, buzzer.is_playing := false,
                 lib_initialized := true }) := by
  by_cases hli : s.lib_initialized = true
  · exact Or.inl ⟨hli, init_noop env s hli⟩
  · have hli' : s.lib_initialized = false := by simpa using hli
    rcases henv : env.load with _ | config
    · right; left
      exact ⟨hli', ⟨.E_CONFERR, by simp [mx_buzzer_init, hli', henv]⟩,
        Or.inl (by simp [mx_buzzer_init, hli', henv])⟩
    · rcases hcv : config.config_version with _ | conf_ver
      · right; left
        exact ⟨hli', ⟨.E_CONFERR, by simp [mx_buzzer_init, hli', henv, hcv]⟩,
          Or.inl (by simp [mx_buzzer_init, hli', henv, hcv])⟩
      · rcases hchk : check_config_version_supported conf_ver env.cv_junk0 env.cv_junk1
            env.sv_junk0 env.sv_junk1 with e | u
        · right; left
          exact ⟨hli', ⟨e, by simp [mx_buzzer_init, hli', henv, hcv, hchk]⟩,
            Or.inl (by simp [mx_buzzer_init, hli', henv, hcv, hchk])⟩
        · rcases hgn : config.gpio_num with _ | n
          · right; left
            exact ⟨hli', ⟨.E_CONFERR, by simp [mx_buzzer_init, hli', henv, hcv, hchk, hgn]⟩,
              Or.inl (by simp [mx_buzzer_init, hli', henv, hcv, hchk, hgn])⟩
          · rcases hex : (if env.already_exported then Except.ok () else env.export_ret)
                with e | u2
            · right; left
              exact ⟨hli',
                ⟨e, by simp [mx_buzzer_init, hli', henv, hcv, hchk, hgn, hex]⟩,
                Or.inr ⟨n, by simp [mx_buzzer_init, hli', henv, hcv, hchk, hgn, hex]⟩⟩
            · rcases hdr : env.dir_ret with e | u3
              · right; left
                exact ⟨hli',
                  ⟨e, by simp [mx_buzzer_init, hli', henv, hcv, hchk, hgn, hex, hdr]⟩,
                  Or.inr ⟨n, by simp [mx_buzzer_init, hli', henv, hcv, hchk, hgn, hex, hdr]⟩⟩
              · right; right
                refine ⟨hli', ?_, n, ?_⟩ <;>
                  simp [mx_buzzer_init, hli', henv, hcv, hchk, hgn, hex, hdr]

/-!  Claim theorems. -/

/-- Claim C1: `mx_buzzer_play_sound` checks, in this order, initialization,
the playing flag and the 60-second bound; the first failing check alone
determines the error, with the state untouched and no GPIO write attempted;
duration 0 is never rejected by the bound check — from an initialized,
non-playing state it always reaches the GPIO-high write. -/
theorem play_precondition_order (env : PlayEnv) (d : Nat) (s : LibState) :
    (s.lib_initialized = false →
      mx_buzzer_play_sound env d s = ⟨.error .E_LIBNOTINIT, s, []⟩) ∧
    (s.lib_initialized = true → s.buzzer.is_playing = true →
      mx_buzzer_play_sound env d s = ⟨.error .E_BUZZER_PLAYING, s, []⟩) ∧
    (s.lib_initialized = true → s.buzzer.is_playing = false → 60 < d →
      mx_buzzer_play_sound env d s = ⟨.error .E_INVAL, s, []⟩) ∧
    (s.lib_initialized = true → s.buzzer.is_playing = false →
      (mx_buzzer_play_sound env 0 s).writes = [true]) := by
  refine ⟨fun h => play_noninit env d s h, fun h1 h2 => play_already env d s h1 h2,
    fun h1 h2 h3 => ?_, fun h1 h2 => ?_⟩
  · simp [mx_buzzer_play_sound, h1, h2, h3]
  · rcases hsh : env.set_high with e | u <;>
      simp [mx_buzzer_play_sound, h1, h2, hsh, DURATION_KEEP]

/-- Claim C1 witness: `play(61)` on an initialized idle device fails with
E_INVAL without touching anything. -/
theorem play_precondition_order_witness :
    mx_buzzer_play_sound envPlayOk 61 sampleIdle = ⟨.error .E_INVAL, sampleIdle, []⟩ :=
  (play_precondition_order envPlayOk 61 sampleIdle).2.2.1 rfl rfl (by decide)

/-- Claim C4: `mx_buzzer_stop_sound` before initialization fails with
E_LIBNOTINIT; on an initialized, non-playing device it succeeds, changes no
state and attempts no GPIO write. -/
theorem stop_noninit_and_idempotent (env : StopEnv) (s : LibState) :
    (s.lib_initialized = false →
      mx_buzzer_stop_sound env s = ⟨.error .E_LIBNOTINIT, s, []⟩) ∧
    (s.lib_initialized = true → s.buzzer.is_playing = false →
      mx_buzzer_stop_sound env s = ⟨.ok (), s, []⟩) :=
  ⟨fun h => stop_noninit env s h, fun h1 h2 => stop_idle env s h1 h2⟩

/-- Claim C4 witness: `stop()` on an initialized idle device is a no-op
success even when the GPIO layer would fail. -/
theorem stop_noninit_and_idempotent_witness :
    mx_buzzer_stop_sound envStopFail sampleIdle = ⟨.ok (), sampleIdle, []⟩ :=
  (stop_noninit_and_idempotent envStopFail sampleIdle).2 rfl rfl

/-- Claim C6 (code bug): "2.0.0" is rejected and "1.0.5" accepted whatever
the indeterminate sscanf targets hold, but an unparseable version string is
accepted whenever the targets happen to hold 1 and 0, because the code
tests the sscanf return with `< 0` (EOF only) instead of checking that both
conversions were assigned. -/
theorem version_check_patch_ignored_and_sscanf_bug (j0 j1 j2 j3 : Int) :
    check_config_version_supported "2.0.0" j0 j1 j2 j3 = .error .E_UNSUPCONFVER ∧
    check_config_version_supported "1.0.5" j0 j1 j2 j3 = .ok () ∧
    check_config_version_supported "buzzer" 1 0 j2 j3 = .ok () :=
  ⟨rfl, rfl, rfl⟩

/-- Claim C8 (code bug): under the interleaving in which the duration
elapses and the thread performs its GPIO-low write just before `stop()`
reads `is_playing`, both paths execute their low write (pthread_cancel
arrives after the thread's last cancellation point); under the interleaving
in which `stop()` runs first, the cancel kills the sleeping thread and
exactly one write happens. -/
theorem stop_race_double_low_write :
    (runRace raceSchedule raceInit).low_writes = 2 ∧
    (runRace raceSchedule raceInit).fgpc = .done ∧
    (runRace raceSchedule raceInit).bgpc = .done ∧
    (runRace [.fg, .fg, .fg, .bg] raceInit).low_writes = 1 :=
  ⟨rfl, rfl, rfl, rfl⟩

/-!  Invariant machinery for claim C2. -/

/-- The inductive strengthening of the spec invariant: status Playing iff
line high, an existing thread implies playing with a non-zero duration, and
nothing is on before initialization. -/
def StateInv (s : LibState) : Prop :=
  (s.buzzer.is_playing = true ↔ s.line_high = true) ∧
  (s.thread_armed = true → s.buzzer.is_playing = true) ∧
  (s.lib_initialized = false →
    s.buzzer.is_playing = false ∧ s.line_high = false ∧ s.thread_armed = false) ∧
  (s.thread_armed = true → s.buzzer.duration ≠ DURATION_KEEP)

lemma stateInv_init (env : InitEnv) (s : LibState) (h : StateInv s) :
    StateInv (mx_buzzer_init env s).st := by
  obtain ⟨h1, h2, h3, h4⟩ := h
  rcases init_st_shape env s with ⟨_, heq⟩ | ⟨_, _, hs | ⟨n, hs⟩⟩ | ⟨hli, _, n, hs⟩
  · rw [heq]; exact ⟨h1, h2, h3, h4⟩
  · rw [hs]; exact ⟨h1, h2, h3, h4⟩
  · rw [hs]; exact ⟨h1, h2, h3, h4⟩
  · obtain ⟨hp, hl, ha⟩ := h3 hli
    rw [hs]
    obtain ⟨li, ⟨gn, ip, du⟩, ta, lh⟩ := s
    simp_all [StateInv]

lemma stateInv_play (env : PlayEnv) (d : Nat) (s : LibState) (h : StateInv s) :
    StateInv (mx_buzzer_play_sound env d s).st := by
  obtain ⟨li, ⟨gn, ip, du⟩, ta, lh⟩ := s
  rcases hsh : env.set_high with e | u <;>
    rcases htc : env.thread_create_ok with _ | _ <;>
    cases li <;> cases ip <;> cases ta <;> cases lh <;>
    simp [mx_buzzer_play_sound, hsh, htc, StateInv, DURATION_KEEP] <;>
    (try split_ifs) <;> simp_all [StateInv, DURATION_KEEP]

lemma stateInv_stop (env : StopEnv) (s : LibState) (h : StateInv s) :
    StateInv (mx_buzzer_stop_sound env s).st := by
  obtain ⟨li, ⟨gn, ip, du⟩, ta, lh⟩ := s
  rcases hsl : env.set_low with e | u <;>
    cases li <;> cases ip <;> cases ta <;> cases lh <;>
    simp [mx_buzzer_stop_sound, hsl, StateInv, DURATION_KEEP] <;>
    (try split_ifs) <;> simp_all [StateInv, DURATION_KEEP]

lemma stateInv_auto (g : Except MxErr Unit) (s : LibState)
    (harmed : s.thread_armed = true) (h : StateInv s) :
    StateInv (wait_and_stop g s).st := by
  obtain ⟨li, ⟨gn, ip, du⟩, ta, lh⟩ := s
  rcases g with e | u <;> simp_all [wait_and_stop, StateInv]

lemma stateInv_step {o : StepOpts} {s t : LibState}
    (hstep : Step o s t) (h : StateInv s) : StateInv t := by
  cases hstep with
  | init env => exact stateInv_init env s h
  | play env d => exact stateInv_play env d s h
  | stop env hallow => exact stateInv_stop env s h
  | auto g harmed => exact stateInv_auto g s harmed h

/-- Claim C2: in every reachable state, including states reached through a
failing operation (a failed config load, a failed GPIO write, a spawn
failure falling through to success with no thread, a failed background
write), status is Playing exactly when the GPIO line is driven high. -/
theorem playing_iff_line_high (s : LibState) (h : Reachable optsAll s0 s) :
    (s.buzzer.is_playing = true ↔ s.line_high = true) := by
  have hinv : StateInv s := by
    induction h with
    | refl => exact ⟨by decide, by decide, by decide, by decide⟩
    | tail hab hbc ih => exact stateInv_step hbc ih
  exact hinv.1

/-- Claim C2 witness: the invariant at the state reached by initializing
and then calling `play(5)` whose pthread_create fails — the call falls
through to success, so the line is high and status is Playing. -/
theorem playing_iff_line_high_witness :
    ((mx_buzzer_play_sound envPlaySpawnFail 5
        (mx_buzzer_init envInitGood s0).st).st.buzzer.is_playing = true ↔
      (mx_buzzer_play_sound envPlaySpawnFail 5
        (mx_buzzer_init envInitGood s0).st).st.line_high = true) :=
  playing_iff_line_high _
    (Relation.ReflTransGen.tail
      (Relation.ReflTransGen.tail Relation.ReflTransGen.refl (Step.init s0 envInitGood))
      (Step.play _ envPlaySpawnFail 5))

/-- Claim C3: a play or stop call that returns an error leaves status
exactly as it was before the call; in particular a failing GPIO-high write
does not move status to Playing, and a failing GPIO-low write leaves it
Playing. -/
theorem status_unchanged_on_error (envp : PlayEnv) (d : Nat) (envs : StopEnv)
    (s : LibState) :
    (∀ e : MxErr, (mx_buzzer_play_sound envp d s).ret = .error e →
      (mx_buzzer_play_sound envp d s).st.status = s.status) ∧
    (∀ e : MxErr, (mx_buzzer_stop_sound envs s).ret = .error e →
      (mx_buzzer_stop_sound envs s).st.status = s.status) := by
  constructor
  · intro e he
    by_cases h1 : s.lib_initialized = true
    · by_cases h2 : s.buzzer.is_playing = true
      · rw [play_already envp d s h1 h2]
      · have h2' : s.buzzer.is_playing = false := by simpa using h2
        by_cases h3 : 60 < d
        · simp [mx_buzzer_play_sound, h1, h2', h3]
        · rcases hsh : envp.set_high with e2 | u
          · simp [mx_buzzer_play_sound, h1, h2', h3, hsh]
          · rcases htc : envp.thread_create_ok with _ | _ <;>
              by_cases hd0 : d = 0 <;>
              simp [mx_buzzer_play_sound, h1, h2', h3, hsh, htc, hd0, DURATION_KEEP] at he
    · rw [play_noninit envp d s (by simpa using h1)]
  · intro e he
    by_cases h1 : s.lib_initialized = true
    · by_cases h2 : s.buzzer.is_playing = true
      · rcases hsl : envs.set_low with e2 | u
        · by_cases hdu : s.buzzer.duration = DURATION_KEEP <;>
            simp [mx_buzzer_stop_sound, h1, h2, hsl, hdu, LibState.status]
        · simp [mx_buzzer_stop_sound, h1, h2, hsl] at he
      · rw [stop_idle envs s h1 (by simpa using h2)] at he
        exact Except.noConfusion he
    · rw [stop_noninit envs s (by simpa using h1)]

/-- Claim C3 witness: a stop whose GPIO-low write fails leaves status at
Playing, exactly as before the call. -/
theorem status_unchanged_on_error_witness :
    (mx_buzzer_stop_sound envStopFail samplePlayingTimed).st.status
      = samplePlayingTimed.status :=
  (status_unchanged_on_error envPlayOk 5 envStopFail samplePlayingTimed).2 (.E_GPIOERR 3) rfl

/-- Claim C5: `mx_buzzer_init` is a no-op success when already initialized
(independent of the config and gpio environment); every failure leaves the
library uninitialized, so later play and stop calls still fail with
E_LIBNOTINIT; each failing step's specific error is returned unchanged
(config load or missing key give E_CONFERR, the version check's and the
gpio layer's errors are propagated as they are); success from an
uninitialized state moves the status from Uninitialized to Idle. -/
theorem init_contract (env : InitEnv) (s : LibState) :
    (s.lib_initialized = true → mx_buzzer_init env s = ⟨.ok (), s, []⟩) ∧
    (∀ e : MxErr, (mx_buzzer_init env s).ret = .error e →
      (mx_buzzer_init env s).st.status = .Uninitialized ∧
      (∀ envp dd, (mx_buzzer_play_sound envp dd (mx_buzzer_init env s).st).ret
          = .error .E_LIBNOTINIT) ∧
      (∀ envs, (mx_buzzer_stop_sound envs (mx_buzzer_init env s).st).ret
          = .error .E_LIBNOTINIT)) ∧
    (env.load = none → s.lib_initialized = false →
      (mx_buzzer_init env s).ret = .error .E_CONFERR) ∧
    (∀ c, env.load = some c → c.config_version = none → s.lib_initialized = false →
      (mx_buzzer_init env s).ret = .error .E_CONFERR) ∧
    (∀ c v e, env.load = some c → c.config_version = some v →
      check_config_version_supported v env.cv_junk0 env.cv_junk1 env.sv_junk0 env.sv_junk1
        = .error e →
      s.lib_initialized = false → (mx_buzzer_init env s).ret = .error e) ∧
    (∀ c v, env.load = some c → c.config_version = some v → c.gpio_num = none →
      check_config_version_supported v env.cv_junk0 env.cv_junk1 env.sv_junk0 env.sv_junk1
        = .ok () →
      s.lib_initialized = false → (mx_buzzer_init env s).ret = .error .E_CONFERR) ∧
    (∀ c v n e, env.load = some c → c.config_version = some v → c.gpio_num = some n →
      check_config_version_supported v env.cv_junk0 env.cv_junk1 env.sv_junk0 env.sv_junk1
        = .ok () →
      env.already_exported = false → env.export_ret = .error e →
      s.lib_initialized = false → (mx_buzzer_init env s).ret = .error e) ∧
    (∀ c v n e, env.load = some c → c.config_version = some v → c.gpio_num = some n →
      check_config_version_supported v env.cv_junk0 env.cv_junk1 env.sv_junk0 env.sv_junk1
        = .ok () →
      env.already_exported = true → env.dir_ret = .error e →
      s.lib_initialized = false → (mx_buzzer_init env s).ret = .error e) ∧
    (s.lib_initialized = false → (mx_buzzer_init env s).ret = Except.ok () →
      s.status = .Uninitialized ∧ (mx_buzzer_init env s).st.status = .Idle) := by
  refine ⟨fun h => init_noop env s h, ?_, ?_, ?_, ?_, ?_, ?_, ?_, ?_⟩
  · intro e he
    have hstli : (mx_buzzer_init env s).st.lib_initialized = false := by
      rcases init_st_shape env s with ⟨_, heq⟩ | ⟨hli, _, hs | ⟨n, hs⟩⟩ | ⟨_, hret, _⟩
      · rw [heq] at he; exact Except.noConfusion he
      · rw [hs]; exact hli
      · rw [hs]; exact hli
      · rw [hret] at he; exact Except.noConfusion he
    refine ⟨by simp [LibState.status, hstli], ?_, ?_⟩
    · intro envp dd; rw [play_noninit envp dd _ hstli]
    · intro envs; rw [stop_noninit envs _ hstli]
  · intro hl hli; simp [mx_buzzer_init, hli, hl]
  · intro c hl hcv hli; simp [mx_buzzer_init, hli, hl, hcv]
  · intro c v e hl hcv hchk hli; simp [mx_buzzer_init, hli, hl, hcv, hchk]
  · intro c v hl hcv hgn hchk hli; simp [mx_buzzer_init, hli, hl, hcv, hchk, hgn]
  · intro c v n e hl hcv hgn hchk hexp hexr hli
    simp [mx_buzzer_init, hli, hl, hcv, hchk, hgn, hexp, hexr]
  · intro c v n e hl hcv hgn hchk hexp hdr hli
    simp [mx_buzzer_init, hli, hl, hcv, hchk, hgn, hexp, hdr]
  · intro hli hok
    refine ⟨by simp [LibState.status, hli], ?_⟩
    rcases init_st_shape env s with ⟨hl, _⟩ | ⟨_, ⟨e, hret⟩, _⟩ | ⟨_, _, n, hs⟩
    · rw [hli] at hl; exact Bool.noConfusion hl
    · rw [hok] at hret; exact Except.noConfusion hret
    · rw [hs]; simp [LibState.status]

/-- Claim C5 witness: an unsupported config version is propagated as
E_UNSUPCONFVER from an uninitialized state, and the good config moves
status from Uninitialized to Idle. -/
theorem init_contract_witness :
    (mx_buzzer_init ⟨some ⟨some "2.0.0", some 60⟩, 0, 0, 0, 0, true, .ok (), .ok ()⟩ s0).ret
        = .error .E_UNSUPCONFVER ∧
    (s0.status = .Uninitialized ∧ (mx_buzzer_init envInitGood s0).st.status = .Idle) :=
  ⟨(init_contract ⟨some ⟨some "2.0.0", some 60⟩, 0, 0, 0, 0, true, .ok (), .ok ()⟩ s0).2.2.2.2.1
      ⟨some "2.0.0", some 60⟩ "2.0.0" .E_UNSUPCONFVER rfl rfl rfl rfl,
   (init_contract envInitGood s0).2.2.2.2.2.2.2.2 rfl rfl⟩

/-!  Indefinite playback persistence, used by claims C7 and C10. -/

/-- An initialized playback with no background thread in existence. -/
def Indefinite (s : LibState) : Prop :=
  s.lib_initialized = true ∧ s.buzzer.is_playing = true ∧ s.thread_armed = false

/-- Along any run that never calls `mx_buzzer_stop_sound`, a playback with
no background thread persists: init is a no-op, play is rejected, and the
background task does not exist to fire. -/
lemma indefinite_preserved {s t : LibState} (h : Indefinite s)
    (hr : Reachable optsNoStop s t) : Indefinite t := by
  induction hr with
  | refl => exact h
  | @tail b c hab hbc ih =>
    obtain ⟨hi, hp, ha⟩ := ih
    cases hbc with
    | init env => rw [init_noop env b hi]; exact ⟨hi, hp, ha⟩
    | play env d => rw [play_already env d b hi hp]; exact ⟨hi, hp, ha⟩
    | stop env hallow => exact absurd hallow (by decide)
    | auto g harmed => exact absurd harmed (by simp [ha])

/-- If the waiting loop of `wait_and_stop` exits at clock sample `ts`, and
the clock neither jumped backwards nor ran 2^64 seconds ahead, then at
least `waiting_time` seconds of wall clock elapsed since `ts_start`. -/
lemma wait_loop_ge (ts_start : Int) (waiting_time : Nat) :
    ∀ (samples : List Int) (ts : Int),
      wait_loop ts_start waiting_time samples = some ts →
      ts_start ≤ ts → ts - ts_start < 18446744073709551616 →
      (waiting_time : Int) ≤ ts - ts_start := by
  intro samples
  induction samples with
  | nil => intro ts h h0 h1; simp [wait_loop] at h
  | cons a rest ih =>
    intro ts h h0 h1
    rw [wait_loop] at h
    split at h
    · exact ih ts h h0 h1
    · injection h with h2
      subst h2
      rename ¬ulongOf (a - ts_start) < waiting_time => hc
      simp only [ulongOf] at hc
      omega

/-- Claim C7: `play(d)` with 0 < d ≤ 60 from an initialized idle state
(external calls succeeding) drives the line high, records the duration and
arms the background thread; the thread's do/while loop only exits once at
least d seconds of wall clock have elapsed, re-checking after each
one-second sleep; its completion then drives the line low and clears the
playing flag; `play(0)` arms no thread and that playback persists through
every run that never calls stop. -/
theorem play_timed_and_indefinite (s t : LibState) (envp : PlayEnv) (d : Nat)
    (ts_start ts : Int) (samples : List Int) :
    (0 < d → d ≤ 60 → s.lib_initialized = true → s.buzzer.is_playing = false →
      envp.set_high = .ok () → envp.thread_create_ok = true →
      mx_buzzer_play_sound envp d s =
        ⟨.ok (),
          { s with
              line_high := true, buzzer.duration := d,
              thread_armed := true, buzzer.is_playing := true },
          [true]⟩) ∧
    (wait_loop ts_start d samples = some ts → ts_start ≤ ts →
      ts - ts_start < 18446744073709551616 → (d : Int) ≤ ts - ts_start) ∧
    ((wait_and_stop (.ok ()) s).st.buzzer.is_playing = false ∧
      (wait_and_stop (.ok ()) s).st.line_high = false ∧
      (wait_and_stop (.ok ()) s).writes = [false]) ∧
    (s.lib_initialized = true → s.buzzer.is_playing = false → envp.set_high = .ok () →
      mx_buzzer_play_sound envp 0 s =
        ⟨.ok (),
          { s with
              line_high := true, buzzer.duration := 0, buzzer.is_playing := true },
          [true]⟩) ∧
    (Indefinite s → Reachable optsNoStop s t → Indefinite t) := by
  refine ⟨fun hd1 hd2 h1 h2 hsh htc => ?_, wait_loop_ge ts_start d samples ts,
    ⟨rfl, rfl, rfl⟩, fun h1 h2 hsh => ?_, fun hi hr => indefinite_preserved hi hr⟩
  · simp [mx_buzzer_play_sound, h1, h2, hsh, htc, DURATION_KEEP,
      (show ¬60 < d by omega), (show d ≠ 0 by omega)]
  · simp [mx_buzzer_play_sound, h1, h2, hsh, DURATION_KEEP]

/-- Claim C7 witness: `play(5)` on the idle sample arms a thread; a loop
started at time 100 that saw samples 101 and 106 exits at 106, at least 5
seconds later; `play(0)` on the idle sample arms no thread and the stop-free
empty run leaves it playing. -/
theorem play_timed_and_indefinite_witness :
    mx_buzzer_play_sound envPlayOk 5 sampleIdle =
      ⟨.ok (),
        { sampleIdle with
            line_high := true, buzzer.duration := 5,
            thread_armed := true, buzzer.is_playing := true },
        [true]⟩ ∧
    ((5 : Nat) : Int) ≤ 106 - 100 ∧
    mx_buzzer_play_sound envPlayOk 0 sampleIdle =
      ⟨.ok (),
        { sampleIdle with
            line_high := true, buzzer.duration := 0, buzzer.is_playing := true },
        [true]⟩ ∧
    Indefinite (mx_buzzer_play_sound envPlayOk 0 sampleIdle).st :=
  ⟨(play_timed_and_indefinite sampleIdle s0 envPlayOk 5 100 106 [101, 106]).1
      (by decide) (by decide) rfl rfl rfl rfl,
   (play_timed_and_indefinite sampleIdle s0 envPlayOk 5 100 106 [101, 106]).2.1
      rfl (by decide) (by decide),
   (play_timed_and_indefinite sampleIdle s0 envPlayOk 0 100 106 [101, 106]).2.2.2.1
      rfl rfl rfl,
   (play_timed_and_indefinite (mx_buzzer_play_sound envPlayOk 0 sampleIdle).st
      (mx_buzzer_play_sound envPlayOk 0 sampleIdle).st envPlayOk 0 100 106 []).2.2.2.2
      ⟨rfl, rfl, rfl⟩ Relation.ReflTransGen.refl⟩

/-- Claim C9 counterexample: when the background task's GPIO-low write
fails, the thread returns NULL — no error value any caller could inspect —
and only prints to stderr, leaving `is_playing` set. -/
theorem background_write_failure_swallowed :
    (wait_and_stop (.error (.E_GPIOERR 5)) samplePlayingTimed).retval = none ∧
    (wait_and_stop (.error (.E_GPIOERR 5)) samplePlayingTimed).log
        = ["failed to stop buzzer"] ∧
    (wait_and_stop (.error (.E_GPIOERR 5)) samplePlayingTimed).st.buzzer.is_playing = true :=
  ⟨rfl, rfl, rfl⟩

/-- Claim C9 amended: the foreground calls propagate every hardware-write
failure to their caller as the gpio layer's own error, but the background
task surfaces no error to any caller: it returns no value, writes a fixed
message to stderr, and leaves the playing flag and the line level as they
were. -/
theorem error_surfacing (s : LibState) (e : MxErr) (d : Nat) :
    ((wait_and_stop (.error e) s).retval = none ∧
      (wait_and_stop (.error e) s).log = ["failed to stop buzzer"] ∧
      (wait_and_stop (.error e) s).st.buzzer.is_playing = s.buzzer.is_playing ∧
      (wait_and_stop (.error e) s).st.line_high = s.line_high) ∧
    (s.lib_initialized = true → s.buzzer.is_playing = false → ¬60 < d →
      (mx_buzzer_play_sound ⟨.error e, true⟩ d s).ret = .error e) ∧
    (s.lib_initialized = true → s.buzzer.is_playing = true →
      (mx_buzzer_stop_sound ⟨.error e⟩ s).ret = .error e) := by
  refine ⟨⟨rfl, rfl, rfl, rfl⟩, fun h1 h2 h3 => ?_, fun h1 h2 => ?_⟩
  · simp [mx_buzzer_play_sound, h1, h2, h3]
  · by_cases hdu : s.buzzer.duration = DURATION_KEEP <;>
      simp [mx_buzzer_stop_sound, h1, h2, hdu]

/-- Claim C9 amended witness: concrete propagation of a gpio error through
play and stop. -/
theorem error_surfacing_witness :
    (mx_buzzer_play_sound ⟨.error (.E_GPIOERR 7), true⟩ 5 sampleIdle).ret
        = .error (.E_GPIOERR 7) ∧
    (mx_buzzer_stop_sound ⟨.error (.E_GPIOERR 7)⟩ samplePlayingTimed).ret
        = .error (.E_GPIOERR 7) :=
  ⟨(error_surfacing sampleIdle (.E_GPIOERR 7) 5).2.1 rfl rfl (by decide),
   (error_surfacing samplePlayingTimed (.E_GPIOERR 7) 5).2.2 rfl rfl⟩

/-- Claim C10: when `stop()` during a timed playback fails at its GPIO-low
write, the thread has already been cancelled before the write was
attempted: the call returns the error with status still Playing and no
thread armed; from that state no run that avoids stop ever clears the
playing flag, while a later successful stop does. -/
theorem stop_write_failure_after_cancel (s t : LibState) (e : MxErr)
    (hinit : s.lib_initialized = true) (hplay : s.buzzer.is_playing = true)
    (hdur : s.buzzer.duration ≠ DURATION_KEEP) :
    mx_buzzer_stop_sound ⟨.error e⟩ s =
      ⟨.error e, { s with thread_armed := false }, [false]⟩ ∧
    ({ s with thread_armed := false } : LibState).status = .Playing ∧
    (Reachable optsNoStop { s with thread_armed := false } t →
      t.buzzer.is_playing = true) ∧
    (mx_buzzer_stop_sound ⟨.ok ()⟩
        { s with thread_armed := false }).st.buzzer.is_playing = false := by
  refine ⟨?_, ?_, fun hr => ?_, ?_⟩
  · simp [mx_buzzer_stop_sound, hinit, hplay, hdur]
  · simp [LibState.status, hinit, hplay]
  · exact (indefinite_preserved
      (show Indefinite { s with thread_armed := false } from ⟨hinit, hplay, rfl⟩) hr).2.1
  · simp [mx_buzzer_stop_sound, hinit, hplay, hdur]

/-- Claim C10 witness: the failing stop on the timed-playback sample, the
still-playing state it leaves after the trivial stop-free run, and the
later successful stop. -/
theorem stop_write_failure_after_cancel_witness :
    mx_buzzer_stop_sound ⟨.error (.E_GPIOERR 2)⟩ samplePlayingTimed =
      ⟨.error (.E_GPIOERR 2), { samplePlayingTimed with thread_armed := false }, [false]⟩ ∧
    ({ samplePlayingTimed with thread_armed := false } : LibState).status = .Playing ∧
    ({ samplePlayingTimed with thread_armed := false } : LibState).buzzer.is_playing
        = true ∧
    (mx_buzzer_stop_sound ⟨.ok ()⟩
        { samplePlayingTimed with thread_armed := false }).st.buzzer.is_playing = false :=
  ⟨(stop_write_failure_after_cancel samplePlayingTimed samplePlayingTimed (.E_GPIOERR 2)
      rfl rfl (by decide)).1,
   (stop_write_failure_after_cancel samplePlayingTimed samplePlayingTimed (.E_GPIOERR 2)
      rfl rfl (by decide)).2.1,
   (stop_write_failure_after_cancel samplePlayingTimed
      { samplePlayingTimed with thread_armed := false } (.E_GPIOERR 2)
      rfl rfl (by decide)).2.2.1 Relation.ReflTransGen.refl,
   (stop_write_failure_after_cancel samplePlayingTimed samplePlayingTimed (.E_GPIOERR 2)
      rfl rfl (by decide)).2.2.2⟩

end MxBuzzer
